import Mathlib

/-!
Verification of the Gulfstream G550 performance-analysis code.

Shallow embedding of the repository's numeric routines over the reals:
`estimativa_de_peso.py` (weight-fraction model and the iterative MTOW
solver), `calculo_distancia_pista.py` (takeoff / landing field lengths)
and `payload_range.py` (Breguet range points).  Python floats are
modelled as real numbers; `float("inf")` results are modelled in `EReal`;
a Python function that can return `None` or crash gets an explicit
result type listing those outcomes.
-/

open scoped Classical

noncomputable section

/-! ## Weight-fraction model (`estimativa_de_peso.py`) -/

/-- Raymer empty-weight fraction, `calculate_empty_weight_fraction`:
`A * W0_N ** C` with `A = 1.118`, `C = -0.070`. -/
def calculate_empty_weight_fraction (W0_N : ℝ) : ℝ :=
  1.118 * W0_N ^ (-0.070 : ℝ)

/-- Mission fuel fraction, `calculate_total_fuel_fraction`.  The body uses
only `R_km`, `V_mps`, `L_D_cruise` and `TSFC_kgNs`; the parameters
`W0_kg` and `h_m` appear in the signature but not in the computation,
exactly as in the source. -/
def calculate_total_fuel_fraction (W0_kg R_km V_mps h_m L_D_cruise TSFC_kgNs : ℝ) : ℝ :=
  let g : ℝ := 9.81
  let R_m : ℝ := R_km * 1000
  let W3_W2 : ℝ := Real.exp (-(R_m * g * TSFC_kgNs) / (V_mps * L_D_cruise))
  let W_other_phases_ratio : ℝ := 0.97 * 0.985 * 0.985 * 0.995
  let W_reserve_ratio : ℝ := 0.98
  1.0 - W3_W2 * W_other_phases_ratio * W_reserve_ratio

/-! ### Python float power semantics

`calculate_empty_weight_fraction` is a bare `W0_N ** C` in Python, so its
behaviour on non-positive input is decided by CPython's `float.__pow__`:
a positive base gives the real power; base `0.0` with a negative exponent
raises `ZeroDivisionError`; a negative base with a non-integral exponent
returns a *complex* number (no exception).  `pyFloatPow` embeds that. -/

/-- Outcome of a Python float power: a float, a complex number, or a
`ZeroDivisionError`. -/
inductive PyVal where
  | r (x : ℝ)
  | c (re im : ℝ)
  | zeroDivErr
deriving DecidableEq

/-- True exactly when the outcome is the `ZeroDivisionError` failure. -/
def PyVal.isError : PyVal → Bool
  | .zeroDivErr => true
  | _ => false

/-- True exactly when the outcome is a complex (non-float) number. -/
def PyVal.isComplex : PyVal → Bool
  | .c _ _ => true
  | _ => false

/-- CPython `x ** y` on floats. -/
def pyFloatPow (x y : ℝ) : PyVal :=
  if 0 < x then .r (x ^ y)
  else if x = 0 then
    if y < 0 then .zeroDivErr else .r (x ^ y)
  else
    if ∃ n : ℤ, (n : ℝ) = y then
      .r (if ∃ n : ℤ, (n : ℝ) = y ∧ Even n then |x| ^ y else -(|x| ^ y))
    else .c (((x : ℂ) ^ (y : ℂ)).re) (((x : ℂ) ^ (y : ℂ)).im)

/-- `calculate_empty_weight_fraction` with Python's power semantics:
`1.118 * (W0_N ** -0.070)`, where multiplication by the float `1.118`
keeps the kind of the power's outcome. -/
def calculate_empty_weight_fraction_py (W0_N : ℝ) : PyVal :=
  match pyFloatPow W0_N (-0.070 : ℝ) with
  | .r v => .r (1.118 * v)
  | .c a b => .c (1.118 * a) (1.118 * b)
  | .zeroDivErr => .zeroDivErr

/-- The exponent `-0.070` is not an integer. -/
lemma exponent_not_integral : ¬ ∃ n : ℤ, (n : ℝ) = (-0.070 : ℝ) := by
  rintro ⟨n, hn⟩
  have h100 : ((100 * n : ℤ) : ℝ) = -7 := by push_cast; linarith
  have : (100 * n : ℤ) = -7 := by exact_mod_cast h100
  omega

/-- On positive input the Python-semantics function agrees with the
real-valued embedding. -/
lemma empty_weight_fraction_py_pos {W0_N : ℝ} (h : 0 < W0_N) :
    calculate_empty_weight_fraction_py W0_N =
      .r (calculate_empty_weight_fraction W0_N) := by
  unfold calculate_empty_weight_fraction_py pyFloatPow
  rw [if_pos h]
  rfl

/-! ## The iterative weight solver (`estimate_weights_iterative`)

The Python function runs `for i in range(max_iterations)` and can
  * return a result dict from the converged branch (which carries *no*
    `converged` key),
  * return a result dict after the loop with `"converged": False`,
  * return `None` when the denominator is non-positive, or
  * crash with a `NameError` when the loop body never ran, because the
    code after the loop reads loop-local variables.
`WeightEstimate.converged` is an `Option Bool`: `none` models an absent
dict key.  `SolveResult` lists the three kinds of outcome. -/

/-- The result dict of `estimate_weights_iterative`. -/
structure WeightEstimate where
  MTOW_kg : ℝ
  OEW_kg : ℝ
  W_fuel_kg : ℝ
  iterations : ℤ
  converged : Option Bool

/-- Possible outcomes of a call to `estimate_weights_iterative`. -/
inductive SolveResult where
  | ok (r : WeightEstimate)
  | noneResult
  | nameError

/-- The denominator `1.0 - We_W0_ratio - Wf_W0_ratio` computed in each
loop iteration (`g = 9.81`; the fuel fraction is called with the default
`L_D_cruise = 16.0`, `TSFC_kgNs = 2.0e-5`, as in the source). -/
def denomOf (R_km V_mps h_m W0 : ℝ) : ℝ :=
  1.0 - calculate_empty_weight_fraction (W0 * 9.81)
      - calculate_total_fuel_fraction W0 R_km V_mps h_m 16.0 2.0e-5

/-- One direct-substitution update:
`W0_calc_kg = (W_payload_kg * g / denominator) / g`. -/
def nextW0 (p R_km V_mps h_m W0 : ℝ) : ℝ :=
  ((p * 9.81) / denomOf R_km V_mps h_m W0) / 9.81

/-- The sequence of loop iterates starting from the initial guess. -/
def iterW0 (p R_km V_mps h_m guess : ℝ) : ℕ → ℝ
  | 0 => guess
  | k + 1 => nextW0 p R_km V_mps h_m (iterW0 p R_km V_mps h_m guess k)

/-- The loop of `estimate_weights_iterative`.  `fuel` is the number of
remaining iterations, `i` the Python loop counter, `last` the values of
the loop-local variables `(W0_calc_kg, We_W0_ratio, Wf_W0_ratio)` from
the previous completed iteration (`none` if no iteration ran yet). -/
def solveLoop (p R_km V_mps h_m tol : ℝ) (maxIter : ℤ) :
    ℕ → ℝ → ℕ → Option (ℝ × ℝ × ℝ) → SolveResult
  | 0, _, _, none => .nameError
  | 0, _, _, some (W0c, WeR, WfR) =>
      .ok ⟨W0c, W0c * WeR, W0c * WfR, maxIter, some false⟩
  | fuel + 1, W0, i, _ =>
      let WeR := calculate_empty_weight_fraction (W0 * 9.81)
      let WfR := calculate_total_fuel_fraction W0 R_km V_mps h_m 16.0 2.0e-5
      let denom := 1.0 - WeR - WfR
      if denom ≤ 0 then .noneResult
      else
        let W0c := ((p * 9.81) / denom) / 9.81
        let residual := W0 - W0c
        if |residual| < tol then
          .ok ⟨W0c, W0c * WeR, W0c * WfR, (i : ℤ) + 1, none⟩
        else
          solveLoop p R_km V_mps h_m tol maxIter fuel W0c (i + 1)
            (some (W0c, WeR, WfR))

/-- `estimate_weights_iterative(W_payload_kg, R_km, V_mps, h_m,
initial_W0_guess_kg, tolerance, max_iterations)`; the `verbose` flag only
controls logging and is dropped. -/
def estimate_weights_iterative
    (W_payload_kg R_km V_mps h_m initial_W0_guess_kg tolerance : ℝ)
    (max_iterations : ℤ) : SolveResult :=
  solveLoop W_payload_kg R_km V_mps h_m tolerance max_iterations
    max_iterations.toNat initial_W0_guess_kg 0 none

/-- Loop-local values carried into iteration `i` (from iteration `i-1`). -/
def lastVals (p R_km V_mps h_m guess : ℝ) : ℕ → Option (ℝ × ℝ × ℝ)
  | 0 => none
  | k + 1 =>
      some (iterW0 p R_km V_mps h_m guess (k + 1),
        calculate_empty_weight_fraction (iterW0 p R_km V_mps h_m guess k * 9.81),
        calculate_total_fuel_fraction (iterW0 p R_km V_mps h_m guess k)
          R_km V_mps h_m 16.0 2.0e-5)

/-! ### Step lemmas for the solver loop -/

lemma solveLoop_zero_none (p R_km V_mps h_m tol : ℝ) (M : ℤ) (W0 : ℝ) (i : ℕ) :
    solveLoop p R_km V_mps h_m tol M 0 W0 i none = .nameError := rfl

lemma solveLoop_zero_some (p R_km V_mps h_m tol : ℝ) (M : ℤ) (W0 : ℝ) (i : ℕ)
    (W0c WeR WfR : ℝ) :
    solveLoop p R_km V_mps h_m tol M 0 W0 i (some (W0c, WeR, WfR)) =
      .ok ⟨W0c, W0c * WeR, W0c * WfR, M, some false⟩ := rfl

lemma solveLoop_succ_infeasible (p R_km V_mps h_m tol : ℝ) (M : ℤ)
    (fuel : ℕ) (W0 : ℝ) (i : ℕ) (last : Option (ℝ × ℝ × ℝ))
    (hd : denomOf R_km V_mps h_m W0 ≤ 0) :
    solveLoop p R_km V_mps h_m tol M (fuel + 1) W0 i last = .noneResult := by
  have hd' : (1.0 : ℝ) - calculate_empty_weight_fraction (W0 * 9.81)
      - calculate_total_fuel_fraction W0 R_km V_mps h_m 16.0 2.0e-5 ≤ 0 := hd
  simp only [solveLoop]
  rw [if_pos hd']

lemma solveLoop_succ_converged (p R_km V_mps h_m tol : ℝ) (M : ℤ)
    (fuel : ℕ) (W0 : ℝ) (i : ℕ) (last : Option (ℝ × ℝ × ℝ))
    (hd : 0 < denomOf R_km V_mps h_m W0)
    (hres : |W0 - nextW0 p R_km V_mps h_m W0| < tol) :
    solveLoop p R_km V_mps h_m tol M (fuel + 1) W0 i last =
      .ok ⟨nextW0 p R_km V_mps h_m W0,
        nextW0 p R_km V_mps h_m W0 * calculate_empty_weight_fraction (W0 * 9.81),
        nextW0 p R_km V_mps h_m W0 *
          calculate_total_fuel_fraction W0 R_km V_mps h_m 16.0 2.0e-5,
        (i : ℤ) + 1, none⟩ := by
  have hd' : ¬ ((1.0 : ℝ) - calculate_empty_weight_fraction (W0 * 9.81)
      - calculate_total_fuel_fraction W0 R_km V_mps h_m 16.0 2.0e-5 ≤ 0) :=
    not_le.mpr hd
  have hres' : |W0 - ((p * 9.81) /
      ((1.0 : ℝ) - calculate_empty_weight_fraction (W0 * 9.81)
        - calculate_total_fuel_fraction W0 R_km V_mps h_m 16.0 2.0e-5)) / 9.81| < tol :=
    hres
  simp only [solveLoop]
  rw [if_neg hd', if_pos hres']
  rfl

lemma solveLoop_succ_continue (p R_km V_mps h_m tol : ℝ) (M : ℤ)
    (fuel : ℕ) (W0 : ℝ) (i : ℕ) (last : Option (ℝ × ℝ × ℝ))
    (hd : 0 < denomOf R_km V_mps h_m W0)
    (hres : tol ≤ |W0 - nextW0 p R_km V_mps h_m W0|) :
    solveLoop p R_km V_mps h_m tol M (fuel + 1) W0 i last =
      solveLoop p R_km V_mps h_m tol M fuel (nextW0 p R_km V_mps h_m W0) (i + 1)
        (some (nextW0 p R_km V_mps h_m W0,
          calculate_empty_weight_fraction (W0 * 9.81),
          calculate_total_fuel_fraction W0 R_km V_mps h_m 16.0 2.0e-5)) := by
  have hd' : ¬ ((1.0 : ℝ) - calculate_empty_weight_fraction (W0 * 9.81)
      - calculate_total_fuel_fraction W0 R_km V_mps h_m 16.0 2.0e-5 ≤ 0) :=
    not_le.mpr hd
  have hres' : ¬ (|W0 - ((p * 9.81) /
      ((1.0 : ℝ) - calculate_empty_weight_fraction (W0 * 9.81)
        - calculate_total_fuel_fraction W0 R_km V_mps h_m 16.0 2.0e-5)) / 9.81| < tol) :=
    not_lt.mpr hres
  simp only [solveLoop]
  rw [if_neg hd', if_neg hres']
  rfl

/-- Reaching iteration `i`: as long as every earlier iteration had a
positive denominator and failed the residual test, the whole call equals
the loop started at the `i`-th iterate. -/
lemma solveLoop_reach (p R_km V_mps h_m guess tol : ℝ) (M : ℤ) :
    ∀ i : ℕ, i ≤ M.toNat →
      (∀ k, k < i → 0 < denomOf R_km V_mps h_m (iterW0 p R_km V_mps h_m guess k) ∧
        tol ≤ |iterW0 p R_km V_mps h_m guess k - iterW0 p R_km V_mps h_m guess (k + 1)|) →
      estimate_weights_iterative p R_km V_mps h_m guess tol M =
        solveLoop p R_km V_mps h_m tol M (M.toNat - i)
          (iterW0 p R_km V_mps h_m guess i) i (lastVals p R_km V_mps h_m guess i) := by
  intro i
  induction i with
  | zero => intro _ _; rfl
  | succ n ih =>
      intro hle hk
      have hn : n ≤ M.toNat := Nat.le_of_succ_le hle
      have hrw := ih hn (fun k hkn => hk k (Nat.lt_succ_of_lt hkn))
      obtain ⟨hd, hres⟩ := hk n (Nat.lt_succ_self n)
      have hfuel : M.toNat - n = (M.toNat - (n + 1)) + 1 := by omega
      rw [hrw, hfuel,
        solveLoop_succ_continue p R_km V_mps h_m tol M _ _ _ _ hd
          (by simpa [iterW0] using hres)]
      simp [lastVals, iterW0]

/-! ### Exact evaluation of the Raymer power at powers of two

`(2 ^ n) ** (-0.070)` is exactly `2⁻ᵏ` when `7 * n = 100 * k`, which
gives exact rational arithmetic for concrete solver runs. -/

lemma rpow_two_pow (n k : ℕ) (h : 7 * n = 100 * k) :
    ((2 : ℝ) ^ n) ^ (-0.070 : ℝ) = ((2 : ℝ) ^ k)⁻¹ := by
  have h2 : (0 : ℝ) ≤ 2 := by norm_num
  have hnk : (n : ℝ) * -(7 / 100) = -(k : ℝ) := by
    have : (7 : ℝ) * n = 100 * k := by exact_mod_cast h
    linarith
  rw [show (-0.070 : ℝ) = -(7 / 100) by norm_num, ← Real.rpow_natCast 2 n,
    ← Real.rpow_mul h2, hnk, Real.rpow_neg h2, Real.rpow_natCast]

lemma empty_frac_two_pow (n k : ℕ) (h : 7 * n = 100 * k) :
    calculate_empty_weight_fraction ((2 : ℝ) ^ n) = 1.118 * ((2 : ℝ) ^ k)⁻¹ := by
  unfold calculate_empty_weight_fraction
  rw [rpow_two_pow n k h]

/-- With zero range the Breguet exponent vanishes, so the fuel fraction
is the exact rational `1 - 0.97 * 0.985 * 0.985 * 0.995 * 0.98`. -/
lemma fuel_frac_zero_range (W0 V_mps h_m L TS : ℝ) :
    calculate_total_fuel_fraction W0 0 V_mps h_m L TS =
      1 - 0.97 * 0.985 * 0.985 * 0.995 * 0.98 := by
  unfold calculate_total_fuel_fraction
  norm_num

lemma denomOf_zero_range_two_pow (V_mps h_m W0 : ℝ) (n k : ℕ)
    (hW : W0 * 9.81 = (2 : ℝ) ^ n) (h : 7 * n = 100 * k) :
    denomOf 0 V_mps h_m W0 =
      0.97 * 0.985 * 0.985 * 0.995 * 0.98 - 1.118 * ((2 : ℝ) ^ k)⁻¹ := by
  unfold denomOf
  rw [hW, empty_frac_two_pow n k h, fuel_frac_zero_range]
  ring

lemma nextW0_zero_payload (R_km V_mps h_m W0 : ℝ) :
    nextW0 0 R_km V_mps h_m W0 = 0 := by
  unfold nextW0
  simp

/-! ## Claim C9: non-positive iteration cap crashes -/

/-- Claim C9: with `max_iterations <= 0` the loop body never runs and the
code after the loop reads the undefined loop locals `W0_calc_kg`,
`We_W0_ratio`, `Wf_W0_ratio`, so the call fails with a `NameError`
instead of returning any result. -/
theorem zero_iterations_name_error
    (p R_km V_mps h_m guess tol : ℝ) (M : ℤ) (hM : M ≤ 0) :
    estimate_weights_iterative p R_km V_mps h_m guess tol M = .nameError := by
  unfold estimate_weights_iterative
  rw [Int.toNat_of_nonpos hM]
  rfl

theorem zero_iterations_name_error_witness :
    estimate_weights_iterative 2812 7200 250.56 12497 40000 1 0 = .nameError :=
  zero_iterations_name_error 2812 7200 250.56 12497 40000 1 0 le_rfl

/-! ## Claim C2: non-positive denominator aborts with no result -/

/-- Claim C2: if iteration `i` is reached (all earlier iterations had a
positive denominator and failed the residual test) and at iteration `i`
the denominator `1 - We_ratio - Wf_ratio` is non-positive, the solver
returns `None` immediately: no `WeightSolution` is ever produced by that
call. -/
theorem infeasible_denominator_returns_none
    (p R_km V_mps h_m guess tol : ℝ) (M : ℤ) (i : ℕ) (hi : i < M.toNat)
    (hprev : ∀ k, k < i →
      0 < denomOf R_km V_mps h_m (iterW0 p R_km V_mps h_m guess k) ∧
      tol ≤ |iterW0 p R_km V_mps h_m guess k - iterW0 p R_km V_mps h_m guess (k + 1)|)
    (hd : denomOf R_km V_mps h_m (iterW0 p R_km V_mps h_m guess i) ≤ 0) :
    estimate_weights_iterative p R_km V_mps h_m guess tol M = .noneResult := by
  rw [solveLoop_reach p R_km V_mps h_m guess tol M i hi.le hprev]
  obtain ⟨f, hf⟩ : ∃ f, M.toNat - i = f + 1 := ⟨M.toNat - i - 1, by omega⟩
  rw [hf, solveLoop_succ_infeasible _ _ _ _ _ _ _ _ _ _ hd]

theorem infeasible_denominator_returns_none_witness :
    estimate_weights_iterative 0 0 1 0 (100 / 981) 1 50 = .noneResult := by
  refine infeasible_denominator_returns_none 0 0 1 0 (100 / 981) 1 50 0
    (by norm_num) (fun k hk => absurd hk (Nat.not_lt_zero k)) ?_
  have h0 : denomOf 0 1 0 (iterW0 0 0 1 0 (100 / 981) 0) =
      0.97 * 0.985 * 0.985 * 0.995 * 0.98 - 1.118 * ((2 : ℝ) ^ (0 : ℕ))⁻¹ := by
    refine denomOf_zero_range_two_pow 1 0 _ 0 0 ?_ rfl
    show (100 / 981 : ℝ) * 9.81 = (2 : ℝ) ^ (0 : ℕ)
    norm_num
  rw [h0]
  norm_num

/-! ## Claim C3: iteration cap is a soft condition -/

/-- Claim C3: with `max_iterations >= 1`, if every iteration has a
positive denominator and none passes the residual test, the solver does
not fail: it returns the last computed values (`MTOW` is the last
`W0_calc_kg`, `OEW`/fuel are built from the last ratios, the iteration
count is the cap) tagged `converged = False`. -/
theorem iteration_cap_returns_nonconverged
    (p R_km V_mps h_m guess tol : ℝ) (M : ℤ) (hM : 1 ≤ M)
    (hall : ∀ k, k < M.toNat →
      0 < denomOf R_km V_mps h_m (iterW0 p R_km V_mps h_m guess k) ∧
      tol ≤ |iterW0 p R_km V_mps h_m guess k - iterW0 p R_km V_mps h_m guess (k + 1)|) :
    estimate_weights_iterative p R_km V_mps h_m guess tol M =
      .ok ⟨iterW0 p R_km V_mps h_m guess M.toNat,
        iterW0 p R_km V_mps h_m guess M.toNat *
          calculate_empty_weight_fraction
            (iterW0 p R_km V_mps h_m guess (M.toNat - 1) * 9.81),
        iterW0 p R_km V_mps h_m guess M.toNat *
          calculate_total_fuel_fraction
            (iterW0 p R_km V_mps h_m guess (M.toNat - 1)) R_km V_mps h_m 16.0 2.0e-5,
        M, some false⟩ := by
  rw [solveLoop_reach p R_km V_mps h_m guess tol M M.toNat le_rfl hall,
    Nat.sub_self]
  have h1 : M.toNat = (M.toNat - 1) + 1 := by omega
  rw [h1, lastVals, solveLoop_zero_some, ← h1]

theorem iteration_cap_returns_nonconverged_witness :
    estimate_weights_iterative 0 0 1 0 ((2 : ℝ) ^ (100 : ℕ) * (100 / 981)) 0 1 =
      .ok ⟨iterW0 0 0 1 0 ((2 : ℝ) ^ (100 : ℕ) * (100 / 981)) 1,
        iterW0 0 0 1 0 ((2 : ℝ) ^ (100 : ℕ) * (100 / 981)) 1 *
          calculate_empty_weight_fraction
            (iterW0 0 0 1 0 ((2 : ℝ) ^ (100 : ℕ) * (100 / 981)) 0 * 9.81),
        iterW0 0 0 1 0 ((2 : ℝ) ^ (100 : ℕ) * (100 / 981)) 1 *
          calculate_total_fuel_fraction
            (iterW0 0 0 1 0 ((2 : ℝ) ^ (100 : ℕ) * (100 / 981)) 0) 0 1 0 16.0 2.0e-5,
        1, some false⟩ := by
  refine iteration_cap_returns_nonconverged 0 0 1 0 _ 0 1 le_rfl ?_
  intro k hk
  have hk0 : k = 0 := by
    have : (1 : ℤ).toNat = 1 := rfl
    omega
  subst hk0
  have h0 : denomOf 0 1 0 (iterW0 0 0 1 0 ((2 : ℝ) ^ (100 : ℕ) * (100 / 981)) 0) =
      0.97 * 0.985 * 0.985 * 0.995 * 0.98 - 1.118 * ((2 : ℝ) ^ (7 : ℕ))⁻¹ := by
    refine denomOf_zero_range_two_pow 1 0 _ 100 7 ?_ rfl
    show ((2 : ℝ) ^ (100 : ℕ) * (100 / 981)) * 9.81 = (2 : ℝ) ^ (100 : ℕ)
    norm_num
  constructor
  · rw [h0]; norm_num
  · show (0 : ℝ) ≤ _
    exact abs_nonneg _

/-! ## Claim C1: the converged branch (corrected) -/

/-- Counterexample to claim C1 as stated: a call that converges at the
first iteration returns a result whose `converged` entry is absent
(`none`), not `true` — the converged-branch dict carries no `converged`
key at all. -/
theorem converged_flag_true_counterexample :
    estimate_weights_iterative 0 0 1 0 ((2 : ℝ) ^ (100 : ℕ) * (100 / 981))
        ((2 : ℝ) ^ (100 : ℕ)) 50 = .ok ⟨0, 0, 0, 1, none⟩ ∧
      (none : Option Bool) ≠ some true := by
  refine ⟨?_, by simp⟩
  unfold estimate_weights_iterative
  rw [show ((50 : ℤ).toNat) = 49 + 1 from rfl]
  have hd : 0 < denomOf 0 1 0 ((2 : ℝ) ^ (100 : ℕ) * (100 / 981)) := by
    rw [denomOf_zero_range_two_pow 1 0 _ 100 7
      (by norm_num) rfl]
    norm_num
  have hnext : nextW0 0 0 1 0 ((2 : ℝ) ^ (100 : ℕ) * (100 / 981)) = 0 :=
    nextW0_zero_payload 0 1 0 _
  have hres : |(2 : ℝ) ^ (100 : ℕ) * (100 / 981) -
      nextW0 0 0 1 0 ((2 : ℝ) ^ (100 : ℕ) * (100 / 981))| < (2 : ℝ) ^ (100 : ℕ) := by
    rw [hnext, sub_zero, abs_of_nonneg (by positivity)]
    rw [show ((2 : ℝ) ^ (100 : ℕ) * (100 / 981)) = (2 : ℝ) ^ (100 : ℕ) * (100 / 981) from rfl]
    nlinarith [pow_pos (show (0 : ℝ) < 2 by norm_num) 100]
  rw [solveLoop_succ_converged 0 0 1 0 ((2 : ℝ) ^ (100 : ℕ)) 50 49 _ 0 none hd hres,
    hnext]
  norm_num

/-- Claim C1 as amended: when iteration `i < max_iterations` is reached
with a positive denominator and `|W0 - W0_calc| < tolerance`, the solver
returns `MTOW = W0_calc`, `OEW = W0_calc * We_ratio`,
`fuel = W0_calc * Wf_ratio` and iteration count `i + 1`, but the result
carries *no* `converged` entry (the key is absent) rather than
`converged = true`. -/
theorem converged_branch_returns_without_flag
    (p R_km V_mps h_m guess tol : ℝ) (M : ℤ) (i : ℕ) (hi : i < M.toNat)
    (hprev : ∀ k, k < i →
      0 < denomOf R_km V_mps h_m (iterW0 p R_km V_mps h_m guess k) ∧
      tol ≤ |iterW0 p R_km V_mps h_m guess k - iterW0 p R_km V_mps h_m guess (k + 1)|)
    (hd : 0 < denomOf R_km V_mps h_m (iterW0 p R_km V_mps h_m guess i))
    (hres : |iterW0 p R_km V_mps h_m guess i - iterW0 p R_km V_mps h_m guess (i + 1)| < tol) :
    estimate_weights_iterative p R_km V_mps h_m guess tol M =
      .ok ⟨iterW0 p R_km V_mps h_m guess (i + 1),
        iterW0 p R_km V_mps h_m guess (i + 1) *
          calculate_empty_weight_fraction (iterW0 p R_km V_mps h_m guess i * 9.81),
        iterW0 p R_km V_mps h_m guess (i + 1) *
          calculate_total_fuel_fraction (iterW0 p R_km V_mps h_m guess i)
            R_km V_mps h_m 16.0 2.0e-5,
        (i : ℤ) + 1, none⟩ := by
  rw [solveLoop_reach p R_km V_mps h_m guess tol M i hi.le hprev]
  obtain ⟨f, hf⟩ : ∃ f, M.toNat - i = f + 1 := ⟨M.toNat - i - 1, by omega⟩
  rw [hf, solveLoop_succ_converged _ _ _ _ _ _ _ _ _ _ hd
    (by simpa [iterW0] using hres)]
  rw [show iterW0 p R_km V_mps h_m guess (i + 1) =
    nextW0 p R_km V_mps h_m (iterW0 p R_km V_mps h_m guess i) from rfl]

theorem converged_branch_returns_without_flag_witness :
    estimate_weights_iterative 0 0 1 0 ((2 : ℝ) ^ (100 : ℕ) * (100 / 981))
        ((2 : ℝ) ^ (100 : ℕ)) 50 =
      .ok ⟨iterW0 0 0 1 0 ((2 : ℝ) ^ (100 : ℕ) * (100 / 981)) 1,
        iterW0 0 0 1 0 ((2 : ℝ) ^ (100 : ℕ) * (100 / 981)) 1 *
          calculate_empty_weight_fraction
            (iterW0 0 0 1 0 ((2 : ℝ) ^ (100 : ℕ) * (100 / 981)) 0 * 9.81),
        iterW0 0 0 1 0 ((2 : ℝ) ^ (100 : ℕ) * (100 / 981)) 1 *
          calculate_total_fuel_fraction
            (iterW0 0 0 1 0 ((2 : ℝ) ^ (100 : ℕ) * (100 / 981)) 0) 0 1 0 16.0 2.0e-5,
        1, none⟩ := by
  refine converged_branch_returns_without_flag 0 0 1 0 _ _ 50 0 (by norm_num)
    (fun k hk => absurd hk (Nat.not_lt_zero k)) ?_ ?_
  · rw [show iterW0 0 0 1 0 ((2 : ℝ) ^ (100 : ℕ) * (100 / 981)) 0 =
      (2 : ℝ) ^ (100 : ℕ) * (100 / 981) from rfl,
      denomOf_zero_range_two_pow 1 0 _ 100 7 (by norm_num) rfl]
    norm_num
  · rw [show iterW0 0 0 1 0 ((2 : ℝ) ^ (100 : ℕ) * (100 / 981)) 1 =
      nextW0 0 0 1 0 ((2 : ℝ) ^ (100 : ℕ) * (100 / 981)) from rfl,
      nextW0_zero_payload, sub_zero,
      show iterW0 0 0 1 0 ((2 : ℝ) ^ (100 : ℕ) * (100 / 981)) 0 =
        (2 : ℝ) ^ (100 : ℕ) * (100 / 981) from rfl,
      abs_of_nonneg (by positivity)]
    nlinarith [pow_pos (show (0 : ℝ) < 2 by norm_num) 100]

/-! ## Claim C6: payload monotonicity (corrected)

Two runs that converge after a *different* number of iterations can
invert the MTOW order: a run with smaller payload can stop one iterate
later, after bouncing above the other run's early stopping point.  The
counterexample uses weights whose force values are powers of two, so the
Raymer power evaluates exactly and every comparison is exact rational
arithmetic. -/

theorem payload_monotonicity_counterexample :
    ((0.97 * 0.985 * 0.985 * 0.995 * 0.98 - 1.118 * ((2 : ℝ) ^ (14 : ℕ))⁻¹) *
        ((2 : ℝ) ^ (100 : ℕ) * (100 / 981)) ≤
      (0.97 * 0.985 * 0.985 * 0.995 * 0.98 - 1.118 * ((2 : ℝ) ^ (14 : ℕ))⁻¹) *
        ((2 : ℝ) ^ (100 : ℕ) * (100 / 981)) * (201 / 200)) ∧
    (estimate_weights_iterative
        ((0.97 * 0.985 * 0.985 * 0.995 * 0.98 - 1.118 * ((2 : ℝ) ^ (14 : ℕ))⁻¹) *
          ((2 : ℝ) ^ (100 : ℕ) * (100 / 981)))
        0 1 0 ((2 : ℝ) ^ (200 : ℕ) * (100 / 981))
        (((2 : ℝ) ^ (200 : ℕ) - (2 : ℝ) ^ (100 : ℕ)) * (100 / 981)) 50 =
      .ok ⟨(0.97 * 0.985 * 0.985 * 0.995 * 0.98 - 1.118 * ((2 : ℝ) ^ (14 : ℕ))⁻¹) *
            ((2 : ℝ) ^ (100 : ℕ) * (100 / 981)) /
            (0.97 * 0.985 * 0.985 * 0.995 * 0.98 - 1.118 * ((2 : ℝ) ^ (7 : ℕ))⁻¹),
        (0.97 * 0.985 * 0.985 * 0.995 * 0.98 - 1.118 * ((2 : ℝ) ^ (14 : ℕ))⁻¹) *
            ((2 : ℝ) ^ (100 : ℕ) * (100 / 981)) /
            (0.97 * 0.985 * 0.985 * 0.995 * 0.98 - 1.118 * ((2 : ℝ) ^ (7 : ℕ))⁻¹) *
          (1.118 * ((2 : ℝ) ^ (7 : ℕ))⁻¹),
        (0.97 * 0.985 * 0.985 * 0.995 * 0.98 - 1.118 * ((2 : ℝ) ^ (14 : ℕ))⁻¹) *
            ((2 : ℝ) ^ (100 : ℕ) * (100 / 981)) /
            (0.97 * 0.985 * 0.985 * 0.995 * 0.98 - 1.118 * ((2 : ℝ) ^ (7 : ℕ))⁻¹) *
          (1 - 0.97 * 0.985 * 0.985 * 0.995 * 0.98),
        2, none⟩) ∧
    (estimate_weights_iterative
        ((0.97 * 0.985 * 0.985 * 0.995 * 0.98 - 1.118 * ((2 : ℝ) ^ (14 : ℕ))⁻¹) *
          ((2 : ℝ) ^ (100 : ℕ) * (100 / 981)) * (201 / 200))
        0 1 0 ((2 : ℝ) ^ (200 : ℕ) * (100 / 981))
        (((2 : ℝ) ^ (200 : ℕ) - (2 : ℝ) ^ (100 : ℕ)) * (100 / 981)) 50 =
      .ok ⟨(2 : ℝ) ^ (100 : ℕ) * (100 / 981) * (201 / 200),
        (2 : ℝ) ^ (100 : ℕ) * (100 / 981) * (201 / 200) *
          (1.118 * ((2 : ℝ) ^ (14 : ℕ))⁻¹),
        (2 : ℝ) ^ (100 : ℕ) * (100 / 981) * (201 / 200) *
          (1 - 0.97 * 0.985 * 0.985 * 0.995 * 0.98),
        1, none⟩) ∧
    ((2 : ℝ) ^ (100 : ℕ) * (100 / 981) * (201 / 200) <
      (0.97 * 0.985 * 0.985 * 0.995 * 0.98 - 1.118 * ((2 : ℝ) ^ (14 : ℕ))⁻¹) *
        ((2 : ℝ) ^ (100 : ℕ) * (100 / 981)) /
        (0.97 * 0.985 * 0.985 * 0.995 * 0.98 - 1.118 * ((2 : ℝ) ^ (7 : ℕ))⁻¹)) := by
  have hguessW : ((2 : ℝ) ^ (200 : ℕ) * (100 / 981)) * 9.81 = (2 : ℝ) ^ (200 : ℕ) := by
    norm_num
  have hW1g : ((2 : ℝ) ^ (100 : ℕ) * (100 / 981)) * 9.81 = (2 : ℝ) ^ (100 : ℕ) := by
    norm_num
  have hd0 : denomOf 0 1 0 ((2 : ℝ) ^ (200 : ℕ) * (100 / 981)) =
      0.97 * 0.985 * 0.985 * 0.995 * 0.98 - 1.118 * ((2 : ℝ) ^ (14 : ℕ))⁻¹ :=
    denomOf_zero_range_two_pow 1 0 _ 200 14 hguessW rfl
  have hd1 : denomOf 0 1 0 ((2 : ℝ) ^ (100 : ℕ) * (100 / 981)) =
      0.97 * 0.985 * 0.985 * 0.995 * 0.98 - 1.118 * ((2 : ℝ) ^ (7 : ℕ))⁻¹ :=
    denomOf_zero_range_two_pow 1 0 _ 100 7 hW1g rfl
  have hd0pos : 0 < denomOf 0 1 0 ((2 : ℝ) ^ (200 : ℕ) * (100 / 981)) := by
    rw [hd0]; norm_num
  have hd1pos : 0 < denomOf 0 1 0 ((2 : ℝ) ^ (100 : ℕ) * (100 / 981)) := by
    rw [hd1]; norm_num
  have hWe1 : calculate_empty_weight_fraction
      (((2 : ℝ) ^ (100 : ℕ) * (100 / 981)) * 9.81) = 1.118 * ((2 : ℝ) ^ (7 : ℕ))⁻¹ := by
    rw [hW1g]; exact empty_frac_two_pow 100 7 rfl
  have hWe0 : calculate_empty_weight_fraction
      (((2 : ℝ) ^ (200 : ℕ) * (100 / 981)) * 9.81) = 1.118 * ((2 : ℝ) ^ (14 : ℕ))⁻¹ := by
    rw [hguessW]; exact empty_frac_two_pow 200 14 rfl
  refine ⟨by norm_num, ?_, ?_, by norm_num⟩
  · -- the run with the smaller payload: no convergence at iteration 0,
    -- convergence at iteration 1, one bounce above the other run's stop.
    have hn1 : nextW0
        ((0.97 * 0.985 * 0.985 * 0.995 * 0.98 - 1.118 * ((2 : ℝ) ^ (14 : ℕ))⁻¹) *
          ((2 : ℝ) ^ (100 : ℕ) * (100 / 981)))
        0 1 0 ((2 : ℝ) ^ (200 : ℕ) * (100 / 981)) =
        (2 : ℝ) ^ (100 : ℕ) * (100 / 981) := by
      unfold nextW0
      rw [hd0]
      norm_num
    have hn2 : nextW0
        ((0.97 * 0.985 * 0.985 * 0.995 * 0.98 - 1.118 * ((2 : ℝ) ^ (14 : ℕ))⁻¹) *
          ((2 : ℝ) ^ (100 : ℕ) * (100 / 981)))
        0 1 0 ((2 : ℝ) ^ (100 : ℕ) * (100 / 981)) =
        (0.97 * 0.985 * 0.985 * 0.995 * 0.98 - 1.118 * ((2 : ℝ) ^ (14 : ℕ))⁻¹) *
          ((2 : ℝ) ^ (100 : ℕ) * (100 / 981)) /
          (0.97 * 0.985 * 0.985 * 0.995 * 0.98 - 1.118 * ((2 : ℝ) ^ (7 : ℕ))⁻¹) := by
      unfold nextW0
      rw [hd1]
      rw [div_div, mul_comm ((0.97 : ℝ) * 0.985 * 0.985 * 0.995 * 0.98 -
        1.118 * ((2 : ℝ) ^ (7 : ℕ))⁻¹) 9.81, ← div_div]
      norm_num
    have hres1 : ¬ (|(2 : ℝ) ^ (200 : ℕ) * (100 / 981) -
        nextW0
          ((0.97 * 0.985 * 0.985 * 0.995 * 0.98 - 1.118 * ((2 : ℝ) ^ (14 : ℕ))⁻¹) *
            ((2 : ℝ) ^ (100 : ℕ) * (100 / 981)))
          0 1 0 ((2 : ℝ) ^ (200 : ℕ) * (100 / 981))| <
        ((2 : ℝ) ^ (200 : ℕ) - (2 : ℝ) ^ (100 : ℕ)) * (100 / 981)) := by
      rw [hn1, abs_of_nonneg (by norm_num)]
      norm_num
    have hres2 : |(2 : ℝ) ^ (100 : ℕ) * (100 / 981) -
        nextW0
          ((0.97 * 0.985 * 0.985 * 0.995 * 0.98 - 1.118 * ((2 : ℝ) ^ (14 : ℕ))⁻¹) *
            ((2 : ℝ) ^ (100 : ℕ) * (100 / 981)))
          0 1 0 ((2 : ℝ) ^ (100 : ℕ) * (100 / 981))| <
        ((2 : ℝ) ^ (200 : ℕ) - (2 : ℝ) ^ (100 : ℕ)) * (100 / 981) := by
      rw [hn2, abs_of_nonpos (by norm_num)]
      norm_num
    unfold estimate_weights_iterative
    rw [show ((50 : ℤ).toNat) = 49 + 1 from rfl,
      solveLoop_succ_continue _ _ _ _ _ _ _ _ _ _ hd0pos (not_lt.mp hres1),
      hn1,
      show (49 : ℕ) = 48 + 1 from rfl,
      solveLoop_succ_converged _ _ _ _ _ _ _ _ _ _ hd1pos hres2,
      hn2, hWe1, fuel_frac_zero_range]
    norm_num
  · -- the run with the larger payload converges at once, at a lower MTOW.
    have hn1 : nextW0
        ((0.97 * 0.985 * 0.985 * 0.995 * 0.98 - 1.118 * ((2 : ℝ) ^ (14 : ℕ))⁻¹) *
          ((2 : ℝ) ^ (100 : ℕ) * (100 / 981)) * (201 / 200))
        0 1 0 ((2 : ℝ) ^ (200 : ℕ) * (100 / 981)) =
        (2 : ℝ) ^ (100 : ℕ) * (100 / 981) * (201 / 200) := by
      unfold nextW0
      rw [hd0]
      norm_num
    have hres1 : |(2 : ℝ) ^ (200 : ℕ) * (100 / 981) -
        nextW0
          ((0.97 * 0.985 * 0.985 * 0.995 * 0.98 - 1.118 * ((2 : ℝ) ^ (14 : ℕ))⁻¹) *
            ((2 : ℝ) ^ (100 : ℕ) * (100 / 981)) * (201 / 200))
          0 1 0 ((2 : ℝ) ^ (200 : ℕ) * (100 / 981))| <
        ((2 : ℝ) ^ (200 : ℕ) - (2 : ℝ) ^ (100 : ℕ)) * (100 / 981) := by
      rw [hn1, abs_of_nonneg (by norm_num)]
      norm_num
    unfold estimate_weights_iterative
    rw [show ((50 : ℤ).toNat) = 49 + 1 from rfl,
      solveLoop_succ_converged _ _ _ _ _ _ _ _ _ _ hd0pos hres1,
      hn1, hWe0, fuel_frac_zero_range]
    norm_num

/-- Claim C6 as amended: monotonicity in payload holds when both runs
converge on the *first* iteration (the counterexample shows it fails as
soon as the two runs stop after a different number of iterations): for
`p1 <= p2` the first-iteration MTOW `p1 / denom <= p2 / denom`. -/
theorem payload_monotone_first_iteration
    (R_km V_mps h_m guess tol : ℝ) (M : ℤ) (p1 p2 : ℝ)
    (hp : p1 ≤ p2) (hM : 1 ≤ M)
    (hd : 0 < denomOf R_km V_mps h_m guess)
    (h1 : |guess - nextW0 p1 R_km V_mps h_m guess| < tol)
    (h2 : |guess - nextW0 p2 R_km V_mps h_m guess| < tol) :
    (estimate_weights_iterative p1 R_km V_mps h_m guess tol M =
      .ok ⟨nextW0 p1 R_km V_mps h_m guess,
        nextW0 p1 R_km V_mps h_m guess *
          calculate_empty_weight_fraction (guess * 9.81),
        nextW0 p1 R_km V_mps h_m guess *
          calculate_total_fuel_fraction guess R_km V_mps h_m 16.0 2.0e-5,
        1, none⟩) ∧
    (estimate_weights_iterative p2 R_km V_mps h_m guess tol M =
      .ok ⟨nextW0 p2 R_km V_mps h_m guess,
        nextW0 p2 R_km V_mps h_m guess *
          calculate_empty_weight_fraction (guess * 9.81),
        nextW0 p2 R_km V_mps h_m guess *
          calculate_total_fuel_fraction guess R_km V_mps h_m 16.0 2.0e-5,
        1, none⟩) ∧
    nextW0 p1 R_km V_mps h_m guess ≤ nextW0 p2 R_km V_mps h_m guess := by
  obtain ⟨f, hf⟩ : ∃ f, M.toNat = f + 1 := ⟨M.toNat - 1, by omega⟩
  refine ⟨?_, ?_, ?_⟩
  · unfold estimate_weights_iterative
    rw [hf, solveLoop_succ_converged _ _ _ _ _ _ _ _ _ _ hd h1]
    norm_num
  · unfold estimate_weights_iterative
    rw [hf, solveLoop_succ_converged _ _ _ _ _ _ _ _ _ _ hd h2]
    norm_num
  · unfold nextW0
    have h981 : (0 : ℝ) < 9.81 := by norm_num
    have hmul : p1 * 9.81 ≤ p2 * 9.81 := by nlinarith
    exact (div_le_div_iff_of_pos_right h981).mpr
      ((div_le_div_iff_of_pos_right hd).mpr hmul)

theorem payload_monotone_first_iteration_witness :
    (estimate_weights_iterative 0 0 1 0 ((2 : ℝ) ^ (100 : ℕ) * (100 / 981))
        ((2 : ℝ) ^ (100 : ℕ)) 50 =
      .ok ⟨nextW0 0 0 1 0 ((2 : ℝ) ^ (100 : ℕ) * (100 / 981)),
        nextW0 0 0 1 0 ((2 : ℝ) ^ (100 : ℕ) * (100 / 981)) *
          calculate_empty_weight_fraction (((2 : ℝ) ^ (100 : ℕ) * (100 / 981)) * 9.81),
        nextW0 0 0 1 0 ((2 : ℝ) ^ (100 : ℕ) * (100 / 981)) *
          calculate_total_fuel_fraction ((2 : ℝ) ^ (100 : ℕ) * (100 / 981))
            0 1 0 16.0 2.0e-5,
        1, none⟩) ∧
    (estimate_weights_iterative 100 0 1 0 ((2 : ℝ) ^ (100 : ℕ) * (100 / 981))
        ((2 : ℝ) ^ (100 : ℕ)) 50 =
      .ok ⟨nextW0 100 0 1 0 ((2 : ℝ) ^ (100 : ℕ) * (100 / 981)),
        nextW0 100 0 1 0 ((2 : ℝ) ^ (100 : ℕ) * (100 / 981)) *
          calculate_empty_weight_fraction (((2 : ℝ) ^ (100 : ℕ) * (100 / 981)) * 9.81),
        nextW0 100 0 1 0 ((2 : ℝ) ^ (100 : ℕ) * (100 / 981)) *
          calculate_total_fuel_fraction ((2 : ℝ) ^ (100 : ℕ) * (100 / 981))
            0 1 0 16.0 2.0e-5,
        1, none⟩) ∧
    nextW0 0 0 1 0 ((2 : ℝ) ^ (100 : ℕ) * (100 / 981)) ≤
      nextW0 100 0 1 0 ((2 : ℝ) ^ (100 : ℕ) * (100 / 981)) := by
  have hW1g : ((2 : ℝ) ^ (100 : ℕ) * (100 / 981)) * 9.81 = (2 : ℝ) ^ (100 : ℕ) := by
    norm_num
  have hd1 : denomOf 0 1 0 ((2 : ℝ) ^ (100 : ℕ) * (100 / 981)) =
      0.97 * 0.985 * 0.985 * 0.995 * 0.98 - 1.118 * ((2 : ℝ) ^ (7 : ℕ))⁻¹ :=
    denomOf_zero_range_two_pow 1 0 _ 100 7 hW1g rfl
  refine payload_monotone_first_iteration 0 1 0 _ _ 50 0 100 (by norm_num)
    (by norm_num) (by rw [hd1]; norm_num) ?_ ?_
  · rw [nextW0_zero_payload, sub_zero, abs_of_nonneg (by positivity)]
    nlinarith [pow_pos (show (0 : ℝ) < 2 by norm_num) 100]
  · unfold nextW0
    rw [hd1, abs_of_nonneg (by norm_num)]
    norm_num

/-! ## Claim C4: the fuel-fraction closed form -/

/-- Claim C4: for positive speed and lift-to-drag ratio the fuel-fraction
function returns exactly one minus the product of the Breguet cruise
ratio, the fixed non-cruise phase ratios and the fixed reserve ratio, and
it raises no error (the embedding is a total function). -/
theorem fuel_fraction_formula
    (W0_kg R_km V_mps h_m L_D_cruise TSFC_kgNs : ℝ)
    (hV : 0 < V_mps) (hLD : 0 < L_D_cruise) :
    calculate_total_fuel_fraction W0_kg R_km V_mps h_m L_D_cruise TSFC_kgNs =
      1 - (Real.exp (-(R_km * 1000) * 9.81 * TSFC_kgNs / (V_mps * L_D_cruise)) *
        (0.97 * 0.985 * 0.985 * 0.995) * 0.98) := by
  simp only [calculate_total_fuel_fraction]
  rw [show -(R_km * 1000 * 9.81 * TSFC_kgNs) / (V_mps * L_D_cruise) =
      -(R_km * 1000) * 9.81 * TSFC_kgNs / (V_mps * L_D_cruise) by ring]
  norm_num

theorem fuel_fraction_formula_witness :
    calculate_total_fuel_fraction 40000 7200 250.56 12497 16.0 2.0e-5 =
      1 - (Real.exp (-(7200 * 1000) * 9.81 * 2.0e-5 / (250.56 * 16.0)) *
        (0.97 * 0.985 * 0.985 * 0.995) * 0.98) :=
  fuel_fraction_formula 40000 7200 250.56 12497 16.0 2.0e-5
    (by norm_num) (by norm_num)

/-! ## Claim C10: the fuel fraction ignores weight and altitude -/

/-- Claim C10: two calls to `calculate_total_fuel_fraction` that differ
only in `W0_kg` and/or `h_m` return the same value: the body never uses
those two parameters. -/
theorem fuel_fraction_ignores_weight_altitude
    (W0_kg W0_kg' R_km V_mps h_m h_m' L_D_cruise TSFC_kgNs : ℝ) :
    calculate_total_fuel_fraction W0_kg R_km V_mps h_m L_D_cruise TSFC_kgNs =
      calculate_total_fuel_fraction W0_kg' R_km V_mps h_m' L_D_cruise TSFC_kgNs :=
  rfl

/-! ## Claim C5: empty-weight fraction on non-positive input (corrected) -/

lemma empty_weight_fraction_py_zero :
    calculate_empty_weight_fraction_py 0 = .zeroDivErr := by
  unfold calculate_empty_weight_fraction_py pyFloatPow
  rw [if_neg (lt_irrefl (0 : ℝ)), if_pos rfl,
    if_pos (by norm_num : (-0.070 : ℝ) < 0)]

lemma empty_weight_fraction_py_neg {W0_N : ℝ} (h : W0_N < 0) :
    (calculate_empty_weight_fraction_py W0_N).isComplex = true ∧
    (calculate_empty_weight_fraction_py W0_N).isError = false := by
  unfold calculate_empty_weight_fraction_py pyFloatPow
  rw [if_neg (by linarith : ¬ (0 : ℝ) < W0_N),
    if_neg (ne_of_lt h), if_neg exponent_not_integral]
  exact ⟨rfl, rfl⟩

/-- Counterexample to claim C5 as stated: at the negative input `-1` the
function does not fail — CPython returns a complex number for a negative
base and non-integral exponent, so a numeric (complex) value is returned
with no `DomainError`. -/
theorem empty_weight_fraction_negative_counterexample :
    (calculate_empty_weight_fraction_py (-1)).isError = false ∧
    (calculate_empty_weight_fraction_py (-1)).isComplex = true := by
  obtain ⟨hc, he⟩ := empty_weight_fraction_py_neg (by norm_num : (-1 : ℝ) < 0)
  exact ⟨he, hc⟩

/-- Claim C5 as amended: for `W0_N > 0` the function returns
`1.118 * W0_N ** (-0.070)`; at `W0_N = 0` it fails (zero cannot be raised
to a negative power — the `DomainError` of the spec, a
`ZeroDivisionError` in CPython); for `W0_N < 0` it does *not* fail but
returns a complex number. -/
theorem empty_weight_fraction_domain_behavior (W0_N : ℝ) :
    (0 < W0_N → calculate_empty_weight_fraction_py W0_N =
      .r (1.118 * W0_N ^ (-0.070 : ℝ))) ∧
    (W0_N = 0 → calculate_empty_weight_fraction_py W0_N = .zeroDivErr) ∧
    (W0_N < 0 → (calculate_empty_weight_fraction_py W0_N).isComplex = true ∧
      (calculate_empty_weight_fraction_py W0_N).isError = false) := by
  refine ⟨fun h => ?_, fun h => ?_, fun h => empty_weight_fraction_py_neg h⟩
  · rw [empty_weight_fraction_py_pos h]
    rfl
  · rw [h]
    exact empty_weight_fraction_py_zero

theorem empty_weight_fraction_domain_behavior_witness :
    (calculate_empty_weight_fraction_py 392400 =
      .r (1.118 * (392400 : ℝ) ^ (-0.070 : ℝ))) ∧
    (calculate_empty_weight_fraction_py 0 = .zeroDivErr) ∧
    ((calculate_empty_weight_fraction_py (-392400)).isComplex = true ∧
      (calculate_empty_weight_fraction_py (-392400)).isError = false) :=
  ⟨(empty_weight_fraction_domain_behavior 392400).1 (by norm_num),
    (empty_weight_fraction_domain_behavior 0).2.1 rfl,
    (empty_weight_fraction_domain_behavior (-392400)).2.2 (by norm_num)⟩

/-! ## Field performance (`calculo_distancia_pista.py`)

Distances that Python sets to `float("inf")` live in `EReal`; the
`warned` flag records whether `logger.warning` fired on the taken path. -/

/-- Average net acceleration of the takeoff ground run, as computed in
`estimate_takeoff_distance`:
`(g / W_N) * (T_avg - D_avg_g - mu_roll * (W_N - L_avg_g))`. -/
def takeoff_a_avg (W_kg S_m2 T_N_static CLmax_TO rho0_kgm3 g_ms2 mu_roll
    CL_ground CD0_takeoff K Vlof_factor V_avg_factor : ℝ) : ℝ :=
  let W_N := W_kg * g_ms2
  let Vs_TO := Real.sqrt ((2 * W_N) / (rho0_kgm3 * S_m2 * CLmax_TO))
  let Vlof := Vlof_factor * Vs_TO
  let V_avg := V_avg_factor * Vlof
  let T_avg := T_N_static
  let CL_avg_g := CL_ground
  let CD_avg_g := CD0_takeoff + K * CL_avg_g ^ 2
  let L_avg_g := 0.5 * rho0_kgm3 * V_avg ^ 2 * S_m2 * CL_avg_g
  let D_avg_g := 0.5 * rho0_kgm3 * V_avg ^ 2 * S_m2 * CD_avg_g
  (g_ms2 / W_N) * (T_avg - D_avg_g - mu_roll * (W_N - L_avg_g))

/-- The result dict of `estimate_takeoff_distance`. -/
structure TakeoffResult where
  Vs_TO_mps : ℝ
  Vlof_mps : ℝ
  a_avg_ms2 : ℝ
  gamma_climb_deg : ℝ
  S_ground_run_m : EReal
  S_rotation_m : ℝ
  S_airborne_m : EReal
  S_total_takeoff_m : EReal
  warned : Bool

/-- `estimate_takeoff_distance`: ground run + rotation + airborne
distance to the obstacle height, with the degenerate branch returning
infinite ground-run and total distances. -/
def estimate_takeoff_distance (W_kg S_m2 T_N_static CLmax_TO rho0_kgm3 g_ms2
    mu_roll CL_ground CD0_takeoff K Vlof_factor V_avg_factor t_rot_s h_obs_m : ℝ) :
    TakeoffResult :=
  let W_N := W_kg * g_ms2
  let Vs_TO := Real.sqrt ((2 * W_N) / (rho0_kgm3 * S_m2 * CLmax_TO))
  let Vlof := Vlof_factor * Vs_TO
  let a_avg := takeoff_a_avg W_kg S_m2 T_N_static CLmax_TO rho0_kgm3 g_ms2
    mu_roll CL_ground CD0_takeoff K Vlof_factor V_avg_factor
  if a_avg ≤ 0 then
    { Vs_TO_mps := Vs_TO, Vlof_mps := Vlof, a_avg_ms2 := a_avg,
      gamma_climb_deg := 0, S_ground_run_m := ⊤, S_rotation_m := 0,
      S_airborne_m := 0, S_total_takeoff_m := ⊤, warned := true }
  else
    let Sg := Vlof ^ 2 / (2 * a_avg)
    let Sr := Vlof * t_rot_s
    let CL_climb := min (W_N / (0.5 * rho0_kgm3 * Vlof ^ 2 * S_m2)) CLmax_TO
    let CD_climb := CD0_takeoff + K * CL_climb ^ 2
    let D_climb := 0.5 * rho0_kgm3 * Vlof ^ 2 * S_m2 * CD_climb
    let sin_gamma_cl := (T_N_static - D_climb) / W_N
    let gamma_cl : ℝ := if sin_gamma_cl ≤ 0 then 0 else Real.arcsin sin_gamma_cl
    let S_air : EReal :=
      if sin_gamma_cl ≤ 0 then ⊤
      else if 0 < Real.tan (Real.arcsin sin_gamma_cl) then
        Real.toEReal (h_obs_m / Real.tan (Real.arcsin sin_gamma_cl))
      else ⊤
    { Vs_TO_mps := Vs_TO, Vlof_mps := Vlof, a_avg_ms2 := a_avg,
      gamma_climb_deg := gamma_cl * 180 / Real.pi,
      S_ground_run_m := Real.toEReal Sg, S_rotation_m := Sr, S_airborne_m := S_air,
      S_total_takeoff_m := Real.toEReal Sg + Real.toEReal Sr + S_air,
      warned := if sin_gamma_cl ≤ 0 then true else false }

/-- Average net deceleration of the landing ground roll, as computed in
`estimate_landing_distance`:
`(g / W_N) * (T_rev - D_avg - mu_brake * (W_N - L_avg))`. -/
def landing_a_avg (W_land_kg S_m2 CLmax_land rho0_kgm3 g_ms2 mu_brake
    CD0_landing K CL_land_ground Vtd_factor T_rev_N : ℝ) : ℝ :=
  let W_land_N := W_land_kg * g_ms2
  let Vs_land := Real.sqrt ((2 * W_land_N) / (rho0_kgm3 * S_m2 * CLmax_land))
  let Vtd := Vtd_factor * Vs_land
  let V_avg_land := 0.7 * Vtd
  let CL_avg_land_g := CL_land_ground
  let CD_avg_land_g := CD0_landing + K * CL_avg_land_g ^ 2
  let L_avg_land_g := 0.5 * rho0_kgm3 * V_avg_land ^ 2 * S_m2 * CL_avg_land_g
  let D_avg_land_g := 0.5 * rho0_kgm3 * V_avg_land ^ 2 * S_m2 * CD_avg_land_g
  (g_ms2 / W_land_N) * (T_rev_N - D_avg_land_g - mu_brake * (W_land_N - L_avg_land_g))

/-- The result dict of `estimate_landing_distance`. -/
structure LandingResult where
  Vs_land_mps : ℝ
  Vapp_mps : ℝ
  Vtd_mps : ℝ
  a_avg_land_ms2 : ℝ
  S_approach_m : ℝ
  S_flare_m : ℝ
  S_ground_roll_m : EReal
  S_total_landing_m : EReal
  warned : Bool

/-- `estimate_landing_distance`: approach + flare + ground roll, with an
infinite ground roll (hence an infinite total) when the net deceleration
has the wrong sign. -/
def estimate_landing_distance (W_land_kg S_m2 CLmax_land rho0_kgm3 g_ms2
    mu_brake CD0_landing K CL_land_ground Vapp_factor Vtd_factor gamma_app_deg
    h_obs_m h_flare_m t_flare_s T_rev_N : ℝ) : LandingResult :=
  let W_land_N := W_land_kg * g_ms2
  let Vs_land := Real.sqrt ((2 * W_land_N) / (rho0_kgm3 * S_m2 * CLmax_land))
  let Vapp := Vapp_factor * Vs_land
  let Vtd := Vtd_factor * Vs_land
  let gamma_app_rad := gamma_app_deg * Real.pi / 180
  let Sa := (h_obs_m - h_flare_m) / Real.tan gamma_app_rad
  let Sf := Vapp * t_flare_s
  let a_avg_land := landing_a_avg W_land_kg S_m2 CLmax_land rho0_kgm3 g_ms2
    mu_brake CD0_landing K CL_land_ground Vtd_factor T_rev_N
  let Sg_land : EReal :=
    if 0 ≤ a_avg_land then ⊤ else Real.toEReal (-(Vtd ^ 2) / (2 * a_avg_land))
  { Vs_land_mps := Vs_land, Vapp_mps := Vapp, Vtd_mps := Vtd,
    a_avg_land_ms2 := a_avg_land, S_approach_m := Sa, S_flare_m := Sf,
    S_ground_roll_m := Sg_land,
    S_total_landing_m := Real.toEReal Sa + Real.toEReal Sf + Sg_land,
    warned := if 0 ≤ a_avg_land then true else false }

/-! ## Claim C7: degenerate field-performance edge policy -/

/-- Claim C7: a non-positive average takeoff acceleration makes
`estimate_takeoff_distance` return normally with an infinite total
distance and a warning; a non-negative average landing deceleration makes
`estimate_landing_distance` return normally with an infinite total
distance and a warning. -/
theorem runway_infeasible_infinite_distance :
    (∀ W_kg S_m2 T_N_static CLmax_TO rho0_kgm3 g_ms2 mu_roll CL_ground
        CD0_takeoff K Vlof_factor V_avg_factor t_rot_s h_obs_m : ℝ,
      takeoff_a_avg W_kg S_m2 T_N_static CLmax_TO rho0_kgm3 g_ms2 mu_roll
          CL_ground CD0_takeoff K Vlof_factor V_avg_factor ≤ 0 →
      (estimate_takeoff_distance W_kg S_m2 T_N_static CLmax_TO rho0_kgm3 g_ms2
          mu_roll CL_ground CD0_takeoff K Vlof_factor V_avg_factor t_rot_s
          h_obs_m).S_total_takeoff_m = ⊤ ∧
      (estimate_takeoff_distance W_kg S_m2 T_N_static CLmax_TO rho0_kgm3 g_ms2
          mu_roll CL_ground CD0_takeoff K Vlof_factor V_avg_factor t_rot_s
          h_obs_m).warned = true) ∧
    (∀ W_land_kg S_m2 CLmax_land rho0_kgm3 g_ms2 mu_brake CD0_landing K
        CL_land_ground Vapp_factor Vtd_factor gamma_app_deg h_obs_m h_flare_m
        t_flare_s T_rev_N : ℝ,
      0 ≤ landing_a_avg W_land_kg S_m2 CLmax_land rho0_kgm3 g_ms2 mu_brake
          CD0_landing K CL_land_ground Vtd_factor T_rev_N →
      (estimate_landing_distance W_land_kg S_m2 CLmax_land rho0_kgm3 g_ms2
          mu_brake CD0_landing K CL_land_ground Vapp_factor Vtd_factor
          gamma_app_deg h_obs_m h_flare_m t_flare_s
          T_rev_N).S_total_landing_m = ⊤ ∧
      (estimate_landing_distance W_land_kg S_m2 CLmax_land rho0_kgm3 g_ms2
          mu_brake CD0_landing K CL_land_ground Vapp_factor Vtd_factor
          gamma_app_deg h_obs_m h_flare_m t_flare_s T_rev_N).warned = true) := by
  constructor
  · intro W_kg S_m2 T_N_static CLmax_TO rho0_kgm3 g_ms2 mu_roll CL_ground
      CD0_takeoff K Vlof_factor V_avg_factor t_rot_s h_obs_m h
    simp only [estimate_takeoff_distance]
    rw [if_pos h]
    exact ⟨rfl, rfl⟩
  · intro W_land_kg S_m2 CLmax_land rho0_kgm3 g_ms2 mu_brake CD0_landing K
      CL_land_ground Vapp_factor Vtd_factor gamma_app_deg h_obs_m h_flare_m
      t_flare_s T_rev_N h
    simp only [estimate_landing_distance]
    rw [if_pos h, if_pos h, ← EReal.coe_add, EReal.coe_add_top]
    exact ⟨rfl, rfl⟩

theorem runway_infeasible_infinite_distance_witness :
    ((estimate_takeoff_distance 4 1 0 1 2 1 1 0 0 0 1 1 0 0).S_total_takeoff_m = ⊤ ∧
      (estimate_takeoff_distance 4 1 0 1 2 1 1 0 0 0 1 1 0 0).warned = true) ∧
    ((estimate_landing_distance 4 1 1 2 1 0 0 0 0 1 1 45 1 0 0 0).S_total_landing_m = ⊤ ∧
      (estimate_landing_distance 4 1 1 2 1 0 0 0 0 1 1 45 1 0 0 0).warned = true) := by
  constructor
  · refine runway_infeasible_infinite_distance.1 4 1 0 1 2 1 1 0 0 0 1 1 0 0 ?_
    simp only [takeoff_a_avg]
    norm_num
  · refine runway_infeasible_infinite_distance.2 4 1 1 2 1 0 0 0 0 1 1 45 1 0 0 0 ?_
    simp only [landing_a_avg]
    norm_num

/-! ## Payload-range (`payload_range.py`) and claim C8 -/

/-- Breguet cruise range, `calculate_range_km`, with the degenerate guard
on non-positive final weight or non-decreasing weight. -/
def calculate_range_km (W_start_kg W_end_kg L_D_avg V_mps TSFC_kgNs : ℝ) : ℝ :=
  if W_end_kg ≤ 0 ∨ W_start_kg ≤ W_end_kg then 0
  else
    (V_mps * L_D_avg) / (9.81 * TSFC_kgNs) * Real.log (W_start_kg / W_end_kg) / 1000

/-- Claim C8: with `W_end_kg <= 0` or `W_start_kg <= W_end_kg` the range
is exactly `0` (and nothing is raised); otherwise the Breguet formula
`(V * L_D) / (9.81 * TSFC) * ln(W_start / W_end) / 1000` is returned. -/
theorem breguet_range_guard (W_start_kg W_end_kg L_D_avg V_mps TSFC_kgNs : ℝ) :
    ((W_end_kg ≤ 0 ∨ W_start_kg ≤ W_end_kg) →
      calculate_range_km W_start_kg W_end_kg L_D_avg V_mps TSFC_kgNs = 0) ∧
    (0 < W_end_kg → W_end_kg < W_start_kg →
      calculate_range_km W_start_kg W_end_kg L_D_avg V_mps TSFC_kgNs =
        (V_mps * L_D_avg) / (9.81 * TSFC_kgNs) *
          Real.log (W_start_kg / W_end_kg) / 1000) := by
  constructor
  · intro h
    unfold calculate_range_km
    rw [if_pos h]
  · intro h1 h2
    unfold calculate_range_km
    rw [if_neg (by push_neg; exact ⟨h1, h2⟩)]

theorem breguet_range_guard_witness :
    calculate_range_km 30000 0 10 200 2.0e-5 = 0 ∧
    calculate_range_km 3 2 4 5 6 =
      (5 * 4) / (9.81 * 6) * Real.log (3 / 2) / 1000 :=
  ⟨(breguet_range_guard 30000 0 10 200 2.0e-5).1 (Or.inl le_rfl),
    (breguet_range_guard 3 2 4 5 6).2 (by norm_num) (by norm_num)⟩

end
